import Mathlib

/-! Shallow embedding of the Sentinel-1 SAR preprocessing pipeline of
`post_fire_analytics/preprocess.py` (`Sentinel1Preprocessor`).

Sample arrays are modelled as total functions over row/column indices
together with an explicit height and width; numeric values are exact
rationals (the float32 cast and float rounding of the source are idealized
as exact arithmetic); the xarray `attrs` metadata mapping is a partial map
from string keys to scalar attribute values; code that can raise is
embedded with `Except`. -/

/-- Six affine transform coefficients (a, b, c, d, e, f) mapping pixel
(col, row) to geographic (x, y): x = a*col + c, y = e*row + f. -/
structure Affine where
  a : ℚ
  b : ℚ
  c : ℚ
  d : ℚ
  e : ℚ
  f : ℚ
deriving DecidableEq

/-- Bounding box (minx, miny, maxx, maxy) of a geometry or geometry set. -/
structure BBox where
  minx : ℚ
  miny : ℚ
  maxx : ℚ
  maxy : ℚ
deriving DecidableEq

/-- Scalar values stored in a grid's `attrs` mapping. -/
inductive AttrVal where
  | str (s : String)
  | int (n : ℤ)
  | rat (q : ℚ)
  | affine (t : Affine)
  | bbox (b : BBox)
deriving DecidableEq

/-- An xarray `DataArray` as used by the pipeline: 2-D rational samples
indexed by (row, col), coordinate vectors for rows (`y`) and columns (`x`),
and the `attrs` metadata mapping. -/
structure DataArray where
  height : ℕ
  width : ℕ
  samples : ℕ → ℕ → ℚ
  ycoords : ℕ → ℚ
  xcoords : ℕ → ℚ
  attrs : String → Option AttrVal

/-- Variant of `DataArray` with real-valued samples, produced by `to_db`
(whose samples involve the transcendental base-10 logarithm). -/
structure DataArrayR where
  height : ℕ
  width : ℕ
  samples : ℕ → ℕ → ℝ
  ycoords : ℕ → ℚ
  xcoords : ℕ → ℚ
  attrs : String → Option AttrVal

/-- Python dict assignment `d[k] = v` on an attrs mapping. -/
def setAttr (m : String → Option AttrVal) (k : String) (v : AttrVal) :
    String → Option AttrVal :=
  fun q => if q = k then some v else m q

/-- Tests whether the character list `p` occurs at the start of `s`. -/
def beginsWith : List Char → List Char → Bool
  | [], _ => true
  | _ :: _, [] => false
  | p :: ps, c :: cs => p == c && beginsWith ps cs

/-- Tests whether `p` occurs as a contiguous substring of the text
(the Python `in` operator on strings). -/
def hasSub (p : List Char) : List Char → Bool
  | [] => beginsWith p []
  | c :: cs => beginsWith p (c :: cs) || hasSub p cs

/-- Python `str.endswith` on character lists. -/
def endsWithChars (p s : List Char) : Bool :=
  beginsWith p.reverse s.reverse

/-- Python `str.lower`, character by character. -/
def lowerChars (s : String) : List Char :=
  s.data.map Char.toLower

/-- The measurement-entry predicate of `load_band` (preprocess.py lines
46-51): the archive entry name contains `"measurement/"`, its lowercased
name contains the token `"-" + polarization.lower() + "-"`, and it ends in
`".tiff"`. -/
def isMeasurementFile (polarization : String) (name : String) : Bool :=
  hasSub "measurement/".data name.data
    && hasSub (('-' :: lowerChars polarization) ++ ['-']) (lowerChars name)
    && endsWithChars ".tiff".data name.data

/-- Entry selection and the not-found error of `load_band` (preprocess.py
lines 44-58): filter the archive entry names with `isMeasurementFile`,
raise `ValueError` when no entry matches, otherwise take the first match.
The raster decoding that follows the selection is I/O and is not part of
the claims modelled here. -/
def loadBandSelect (archiveName : String) (entries : List String)
    (polarization : String) : Except String String :=
  match entries.filter (isMeasurementFile polarization) with
  | [] => Except.error ("No " ++ polarization ++ " polarization found in " ++ archiveName)
  | f :: _ => Except.ok f

/-- Radiometric calibration (preprocess.py lines 93-121):
`calibrated = (data.astype("float32") ** 2) / 1e6`, then the input attrs
are copied onto the result and the calibration mode and linear units are
recorded. The float32 cast is idealized as exact rational arithmetic. The
source performs no validation of the calibration mode. -/
def calibrate (data : DataArray) (calibration : String) : DataArray :=
  { data with
    samples := fun i j => data.samples i j ^ 2 / 1000000
    attrs := setAttr (setAttr data.attrs "calibration" (AttrVal.str calibration))
      "units" (AttrVal.str "linear") }

/-- Replacement of non-positive samples by the 1e-10 floor: models
`data.where(data > 0, 1e-10)` in `to_db`. -/
def dbFloor (x : ℚ) : ℚ :=
  if 0 < x then x else 1 / 10 ^ 10

/-- Conversion to decibels (preprocess.py lines 123-142): floor
non-positive samples at 1e-10, apply `10 * log10` elementwise, keep the
input attrs and set units to `"dB"`. -/
noncomputable def to_db (data : DataArray) : DataArrayR :=
  { height := data.height
    width := data.width
    samples := fun i j => 10 * Real.logb 10 ((dbFloor (data.samples i j) : ℚ) : ℝ)
    ycoords := data.ycoords
    xcoords := data.xcoords
    attrs := setAttr data.attrs "units" (AttrVal.str "dB") }

/-- Index reflection of the scipy.ndimage default boundary mode, pattern
(d c b a | a b c d | d c b a), valid for arbitrary overhang: the reflected
sequence is periodic with period `2*n`. -/
def reflectIdx (n : ℕ) (i : ℤ) : ℕ :=
  if n = 0 then 0
  else
    let m := i.emod (2 * (n : ℤ))
    if m < (n : ℤ) then m.toNat else (2 * (n : ℤ) - 1 - m).toNat

/-- scipy.ndimage.uniform_filter on a height x width image: the mean of
the size x size window whose top-left offset per axis is `-(size / 2)`,
with reflect boundary handling. -/
def uniformFilter (h w : ℕ) (img : ℕ → ℕ → ℚ) (size : ℕ) (i j : ℕ) : ℚ :=
  (List.sum ((List.range size).map fun di =>
      List.sum ((List.range size).map fun dj =>
        img (reflectIdx h ((i : ℤ) + (di : ℤ) - ((size / 2 : ℕ) : ℤ)))
          (reflectIdx w ((j : ℤ) + (dj : ℤ) - ((size / 2 : ℕ) : ℤ))))))
    / ((size : ℚ) ^ 2)

/-- The Lee speckle filter `_lee_filter` (preprocess.py lines 185-199):
local mean and local mean of squares by uniform filtering, variance as
their difference, noise variance `mean^2 / 4.4`, shrinkage weight
`k = variance / (variance + noise_variance)`, output
`mean + k * (img - mean)`. -/
def leeFilter (h w : ℕ) (img : ℕ → ℕ → ℚ) (size : ℕ) (i j : ℕ) : ℚ :=
  let mean := uniformFilter h w img size i j
  let sqrMean := uniformFilter h w (fun a b => img a b ^ 2) size i j
  let variance := sqrMean - mean ^ 2
  let noiseVariance := mean ^ 2 / (4.4 : ℚ)
  let k := variance / (variance + noiseVariance)
  mean + k * (img i j - mean)

/-- The refined Lee filter `_refined_lee_filter` (preprocess.py lines
201-206): an explicit alias of the standard Lee filter. -/
def refinedLeeFilter (h w : ℕ) (img : ℕ → ℕ → ℚ) (size : ℕ) (i j : ℕ) : ℚ :=
  leeFilter h w img size i j

/-- Per-pixel Lee filter with the source's IEEE division semantics for the
shrinkage weight `k = variance / (variance + noise_variance)`. `leeFilter`
uses total rational division, which silently makes 0/0 equal 0; numpy
instead yields NaN for 0/0 and an infinity for a nonzero numerator over
zero, and either one pollutes the output pixel (NaN propagates, and an
infinite k multiplied into `img - mean`, which is 0 exactly when the
denominator vanishes on a homogeneous window, is again NaN). `none` marks
such a non-finite output; when the denominator is nonzero the output is
the same finite value `leeFilter` computes. -/
def leeFilterIEEE (h w : ℕ) (img : ℕ → ℕ → ℚ) (size : ℕ) (i j : ℕ) : Option ℚ :=
  let mean := uniformFilter h w img size i j
  let sqrMean := uniformFilter h w (fun a b => img a b ^ 2) size i j
  let variance := sqrMean - mean ^ 2
  let noiseVariance := mean ^ 2 / (4.4 : ℚ)
  if variance + noiseVariance = 0 then none
  else some (mean + (variance / (variance + noiseVariance)) * (img i j - mean))

/-- The size x size window of image values around (i, j), reflect boundary
handling, row-major. -/
def windowVals (h w : ℕ) (img : ℕ → ℕ → ℚ) (size : ℕ) (i j : ℕ) : List ℚ :=
  ((List.range size).map fun di =>
      (List.range size).map fun dj =>
        img (reflectIdx h ((i : ℤ) + (di : ℤ) - ((size / 2 : ℕ) : ℤ)))
          (reflectIdx w ((j : ℤ) + (dj : ℤ) - ((size / 2 : ℕ) : ℤ)))).flatten

/-- scipy.ndimage.median_filter: the rank `size*size / 2` element (0-based)
of the sorted size x size window. -/
def medianFilter (h w : ℕ) (img : ℕ → ℕ → ℚ) (size : ℕ) (i j : ℕ) : ℚ :=
  (List.insertionSort (· ≤ ·) (windowVals h w img size i j)).getD (size * size / 2) 0

/-- Wrapping of a filtered sample array back into a grid
(preprocess.py lines 178-180): `result = data.copy(data=filtered)` keeps
shape, coordinates and attrs, then the filter kind and window size are
recorded. -/
def stampFilter (data : DataArray) (filtered : ℕ → ℕ → ℚ) (filterType : String)
    (windowSize : ℕ) : DataArray :=
  { data with
    samples := filtered
    attrs := setAttr (setAttr data.attrs "speckle_filter" (AttrVal.str filterType))
      "filter_window" (AttrVal.int (windowSize : ℤ)) }

/-- `apply_speckle_filter` (preprocess.py lines 144-183): dispatch on the
filter kind (median, lee, refined_lee), raising `ValueError` for any other
kind. -/
def applySpeckleFilter (data : DataArray) (filterType : String) (windowSize : ℕ) :
    Except String DataArray :=
  if filterType = "median" then
    Except.ok (stampFilter data
      (medianFilter data.height data.width data.samples windowSize) filterType windowSize)
  else if filterType = "lee" then
    Except.ok (stampFilter data
      (leeFilter data.height data.width data.samples windowSize) filterType windowSize)
  else if filterType = "refined_lee" then
    Except.ok (stampFilter data
      (refinedLeeFilter data.height data.width data.samples windowSize) filterType windowSize)
  else
    Except.error ("Unknown filter type: " ++ filterType)

/-- `crop_to_bounds` (preprocess.py lines 208-234): the bounds tuple
`(minx, miny, maxx, maxy)` is unpacked on entry (line 223), then
`data.sel(x=slice(minx, maxx), y=slice(maxy, miny))`. For monotone
coordinate vectors, xarray label slicing retains exactly the indices whose
coordinate lies in the closed interval; on a decreasing y axis the slice
from maxy down to miny retains `miny <= y <= maxy`. The `sel` call carries
`attrs` through unchanged and slices the coordinate vectors in lock-step
with the samples. -/
def cropToBounds (data : DataArray) (minx miny maxx maxy : ℚ) : DataArray :=
  let rowIdx := (List.range data.height).filter fun i =>
    decide (miny ≤ data.ycoords i ∧ data.ycoords i ≤ maxy)
  let colIdx := (List.range data.width).filter fun j =>
    decide (minx ≤ data.xcoords j ∧ data.xcoords j ≤ maxx)
  { height := rowIdx.length
    width := colIdx.length
    samples := fun i j => data.samples (rowIdx.getD i 0) (colIdx.getD j 0)
    ycoords := fun i => data.ycoords (rowIdx.getD i 0)
    xcoords := fun j => data.xcoords (colIdx.getD j 0)
    attrs := data.attrs }

/-- Combined bounding box of a list of geometries: models geopandas
`GeoDataFrame.total_bounds` over the geometries read from the boundary
file. -/
def totalBounds (geoms : List BBox) : BBox :=
  match geoms with
  | [] => ⟨0, 0, 0, 0⟩
  | g :: rest =>
    rest.foldl (fun acc x =>
      ⟨min acc.minx x.minx, min acc.miny x.miny,
        max acc.maxx x.maxx, max acc.maxy x.maxy⟩) g

/-- `clip_to_geojson` (preprocess.py lines 236-275): read the boundary
file, compute its combined bounding box, and return a copy of the grid
with only the `"geojson_bounds"` metadata attached - no actual cropping is
performed. The parsed geometry list of the boundary file is passed as an
argument. -/
def clipToGeojson (data : DataArray) (geoms : List BBox) : DataArray :=
  { data with
    attrs := setAttr data.attrs "geojson_bounds" (AttrVal.bbox (totalBounds geoms)) }

/-- Concrete attrs mapping as produced by band extraction. -/
def sampleAttrs : String → Option AttrVal :=
  fun k =>
    if k = "polarization" then some (AttrVal.str "VV")
    else if k = "crs" then some (AttrVal.str "EPSG:32633")
    else if k = "transform" then some (AttrVal.affine ⟨1, 0, 0, 0, -1, 4⟩)
    else if k = "nodata" then some (AttrVal.rat 0)
    else none

/-- Concrete 4 x 4 grid with transform (a=1, b=0, c=0, d=0, e=-1, f=4), as
in the end-to-end scenario of the specification. -/
def sampleGrid : DataArray :=
  { height := 4
    width := 4
    samples := fun i j => (i : ℚ) * 10 + (j : ℚ)
    ycoords := fun i => 4 - (i : ℚ)
    xcoords := fun j => (j : ℚ)
    attrs := sampleAttrs }

/-- Constant image, every pixel 5: a perfectly homogeneous scene. -/
def constImg : ℕ → ℕ → ℚ := fun _ _ => 5

/-- Constant image, every pixel 0: a perfectly homogeneous scene whose
local mean is zero everywhere. -/
def zeroImg : ℕ → ℕ → ℚ := fun _ _ => 0

/-- Entry list of an archive carrying only VV and VH measurement rasters. -/
def sampleEntries : List String :=
  ["S1A_IW_GRDH.SAFE/measurement/s1a-iw-grd-vv-20220620.tiff",
    "S1A_IW_GRDH.SAFE/measurement/s1a-iw-grd-vh-20220620.tiff"]

/-- Strict filtering: a list element that fails the predicate makes the
filtered list strictly shorter. -/
theorem length_filter_lt_of_mem {α : Type} {p : α → Bool} {l : List α} {a : α}
    (ha : a ∈ l) (hpa : p a = false) : (l.filter p).length < l.length := by
  induction l with
  | nil => cases ha
  | cons b bs ih =>
    rcases List.mem_cons.mp ha with rfl | hmem
    · rw [List.filter_cons, if_neg (by simp [hpa])]
      exact Nat.lt_succ_of_le (List.length_filter_le p bs)
    · by_cases hb : p b
      · rw [List.filter_cons, if_pos (by simp [hb])]
        simpa using Nat.succ_lt_succ (ih hmem)
      · rw [List.filter_cons, if_neg (by simp [hb])]
        exact Nat.lt_succ_of_lt (ih hmem)

/-- Projection of cropping on the height field. -/
theorem cropToBounds_height (data : DataArray) (minx miny maxx maxy : ℚ) :
    (cropToBounds data minx miny maxx maxy).height
      = ((List.range data.height).filter fun i =>
          decide (miny ≤ data.ycoords i ∧ data.ycoords i ≤ maxy)).length := rfl

/-- Projection of cropping on the width field. -/
theorem cropToBounds_width (data : DataArray) (minx miny maxx maxy : ℚ) :
    (cropToBounds data minx miny maxx maxy).width
      = ((List.range data.width).filter fun j =>
          decide (minx ≤ data.xcoords j ∧ data.xcoords j ≤ maxx)).length := rfl

/-- Projection of cropping on the row coordinate vector. -/
theorem cropToBounds_ycoords (data : DataArray) (minx miny maxx maxy : ℚ) (i : ℕ) :
    (cropToBounds data minx miny maxx maxy).ycoords i
      = data.ycoords (((List.range data.height).filter fun i =>
          decide (miny ≤ data.ycoords i ∧ data.ycoords i ≤ maxy)).getD i 0) := rfl

/-- Projection of cropping on the column coordinate vector. -/
theorem cropToBounds_xcoords (data : DataArray) (minx miny maxx maxy : ℚ) (j : ℕ) :
    (cropToBounds data minx miny maxx maxy).xcoords j
      = data.xcoords (((List.range data.width).filter fun j =>
          decide (minx ≤ data.xcoords j ∧ data.xcoords j ≤ maxx)).getD j 0) := rfl

/-- C1: for every input grid and every calibration mode, `calibrate`
returns a grid whose samples are the input samples squared and divided by
1e6 (the float32 cast idealized as exact arithmetic), with
`metadata["calibration"] = mode` and `metadata["units"] = "linear"` added
and every other field of the grid - shape, coordinates, and all other
metadata keys - unchanged. -/
theorem calibrate_spec (data : DataArray) (mode : String) :
    (∀ i j, (calibrate data mode).samples i j = data.samples i j ^ 2 / 1000000)
    ∧ (calibrate data mode).attrs "calibration" = some (AttrVal.str mode)
    ∧ (calibrate data mode).attrs "units" = some (AttrVal.str "linear")
    ∧ (calibrate data mode).height = data.height
    ∧ (calibrate data mode).width = data.width
    ∧ (calibrate data mode).ycoords = data.ycoords
    ∧ (calibrate data mode).xcoords = data.xcoords
    ∧ ∀ k, k ≠ "calibration" → k ≠ "units" →
        (calibrate data mode).attrs k = data.attrs k := by
  refine ⟨fun i j => rfl, ?_, ?_, rfl, rfl, rfl, rfl, ?_⟩
  · simp [calibrate, setAttr]
  · simp [calibrate, setAttr]
  · intro k h1 h2
    simp [calibrate, setAttr, h1, h2]

/-- Witness for C1 at the concrete sample grid: the extraction-stage
polarization key is untouched by calibration. -/
theorem calibrate_spec_witness :
    (calibrate sampleGrid "sigma0").attrs "polarization"
      = sampleGrid.attrs "polarization" :=
  (calibrate_spec sampleGrid "sigma0").2.2.2.2.2.2.2 "polarization"
    (by decide) (by decide)

/-- C2: for every input image and window size, the Lee speckle filter
computes, per pixel, the local window mean and the local window variance
via uniform filtering of the image and of its elementwise square
(variance = mean of squares minus square of mean), the noise variance
mean^2 / 4.4, the weight k = variance / (variance + noise variance), and
outputs mean + k * (x - mean). -/
theorem lee_filter_formula (h w : ℕ) (img : ℕ → ℕ → ℚ) (size : ℕ) (i j : ℕ) :
    leeFilter h w img size i j
      = uniformFilter h w img size i j
        + ((uniformFilter h w (fun a b => img a b ^ 2) size i j
              - uniformFilter h w img size i j ^ 2)
            / ((uniformFilter h w (fun a b => img a b ^ 2) size i j
                  - uniformFilter h w img size i j ^ 2)
                + uniformFilter h w img size i j ^ 2 / (4.4 : ℚ)))
          * (img i j - uniformFilter h w img size i j) := rfl

/-- C3: for every input grid, `to_db` produces samples obtained by
replacing every non-positive sample with the floor constant 1e-10 and then
applying 10 * log10 elementwise, and sets `metadata["units"] = "dB"`. -/
theorem to_db_spec (data : DataArray) (i j : ℕ) :
    (to_db data).samples i j
      = 10 * Real.logb 10
          (if 0 < data.samples i j then (data.samples i j : ℝ) else 1e-10)
    ∧ (to_db data).attrs "units" = some (AttrVal.str "dB") := by
  constructor
  · show 10 * Real.logb 10 ((dbFloor (data.samples i j) : ℚ) : ℝ) = _
    by_cases hx : 0 < data.samples i j
    · rw [dbFloor, if_pos hx, if_pos hx]
    · rw [dbFloor, if_neg hx, if_neg hx]
      norm_num
  · simp [to_db, setAttr]

/-- Counterexample to C9: on the all-zero image the 3 x 3 window at pixel
(1, 1) is perfectly homogeneous (local window variance is zero), but the
local mean is also zero, so `variance + noise_variance = 0 + 0 = 0` and
the program computes the shrinkage weight as 0.0/0.0 = NaN and outputs
NaN at that pixel - not the local window mean, as the claim asserts for
every homogeneous window. -/
theorem lee_filter_homogeneous_cex :
    uniformFilter 3 3 (fun a b => zeroImg a b ^ 2) 3 1 1
        - uniformFilter 3 3 zeroImg 3 1 1 ^ 2 = 0
    ∧ leeFilterIEEE 3 3 zeroImg 3 1 1 ≠ some (uniformFilter 3 3 zeroImg 3 1 1) := by
  with_unfolding_all decide

/-- Amended C9: for every pixel whose local window is perfectly
homogeneous (the local window variance is zero) and whose local window
mean is nonzero, the Lee filter output at that pixel equals the local
window mean exactly, the shrinkage weight being zero; when the local mean
is also zero the weight's denominator vanishes and the program outputs
NaN instead. -/
theorem lee_filter_homogeneous_amended (h w : ℕ) (img : ℕ → ℕ → ℚ) (size i j : ℕ)
    (hv : uniformFilter h w (fun a b => img a b ^ 2) size i j
            - uniformFilter h w img size i j ^ 2 = 0)
    (hm : uniformFilter h w img size i j ≠ 0) :
    leeFilterIEEE h w img size i j = some (uniformFilter h w img size i j) := by
  simp only [leeFilterIEEE]
  rw [hv]
  have hd : (0 : ℚ) + uniformFilter h w img size i j ^ 2 / (4.4 : ℚ) ≠ 0 := by
    rw [zero_add]
    exact div_ne_zero (pow_ne_zero 2 hm) (by norm_num)
  rw [if_neg hd]
  simp

/-- Witness for the amended C9 on a perfectly homogeneous 3 x 3 scene of
constant value 5 (nonzero local mean) with a 3 x 3 window. -/
theorem lee_filter_homogeneous_amended_witness :
    leeFilterIEEE 3 3 constImg 3 1 1 = some (uniformFilter 3 3 constImg 3 1 1) :=
  lee_filter_homogeneous_amended 3 3 constImg 3 1 1
    (by with_unfolding_all decide) (by with_unfolding_all decide)

/-- C4: for every grid with strictly monotone coordinate vectors (y
decreasing top-down) and bounds strictly inside the grid's coordinate
extent, `crop_to_bounds` returns a grid whose samples shape is strictly
smaller in both dimensions and whose every retained column coordinate lies
within [minx, maxx] and every retained row coordinate within
[miny, maxy]. -/
theorem crop_to_bounds_inside (data : DataArray) (minx miny maxx maxy : ℚ)
    (hh : 0 < data.height) (hw : 0 < data.width)
    (hxmono : ∀ j, j < data.width - 1 → data.xcoords j < data.xcoords (j + 1))
    (hymono : ∀ i, i < data.height - 1 → data.ycoords (i + 1) < data.ycoords i)
    (hx0 : data.xcoords 0 < minx) (hx1 : maxx < data.xcoords (data.width - 1))
    (hy0 : data.ycoords (data.height - 1) < miny) (hy1 : maxy < data.ycoords 0) :
    (cropToBounds data minx miny maxx maxy).height < data.height
    ∧ (cropToBounds data minx miny maxx maxy).width < data.width
    ∧ (∀ i, i < (cropToBounds data minx miny maxx maxy).height →
        miny ≤ (cropToBounds data minx miny maxx maxy).ycoords i
          ∧ (cropToBounds data minx miny maxx maxy).ycoords i ≤ maxy)
    ∧ (∀ j, j < (cropToBounds data minx miny maxx maxy).width →
        minx ≤ (cropToBounds data minx miny maxx maxy).xcoords j
          ∧ (cropToBounds data minx miny maxx maxy).xcoords j ≤ maxx) := by
  have hytop : ¬ (miny ≤ data.ycoords 0 ∧ data.ycoords 0 ≤ maxy) := by
    rintro ⟨-, hb⟩
    exact absurd hb (not_le.mpr hy1)
  have hxlow : ¬ (minx ≤ data.xcoords 0 ∧ data.xcoords 0 ≤ maxx) := by
    rintro ⟨ha, -⟩
    exact absurd ha (not_le.mpr hx0)
  refine ⟨?_, ?_, ?_, ?_⟩
  · rw [cropToBounds_height]
    have := length_filter_lt_of_mem
      (p := fun i => decide (miny ≤ data.ycoords i ∧ data.ycoords i ≤ maxy))
      (List.mem_range.mpr hh) (decide_eq_false hytop)
    simpa using this
  · rw [cropToBounds_width]
    have := length_filter_lt_of_mem
      (p := fun j => decide (minx ≤ data.xcoords j ∧ data.xcoords j ≤ maxx))
      (List.mem_range.mpr hw) (decide_eq_false hxlow)
    simpa using this
  · intro i hi
    rw [cropToBounds_height] at hi
    rw [cropToBounds_ycoords]
    have hmem : (((List.range data.height).filter fun i =>
        decide (miny ≤ data.ycoords i ∧ data.ycoords i ≤ maxy)).getD i 0)
          ∈ ((List.range data.height).filter fun i =>
              decide (miny ≤ data.ycoords i ∧ data.ycoords i ≤ maxy)) := by
      rw [List.getD_eq_get _ _ hi]
      exact List.get_mem _ _ _
    exact of_decide_eq_true (List.mem_filter.mp hmem).2
  · intro j hj
    rw [cropToBounds_width] at hj
    rw [cropToBounds_xcoords]
    have hmem : (((List.range data.width).filter fun j =>
        decide (minx ≤ data.xcoords j ∧ data.xcoords j ≤ maxx)).getD j 0)
          ∈ ((List.range data.width).filter fun j =>
              decide (minx ≤ data.xcoords j ∧ data.xcoords j ≤ maxx)) := by
      rw [List.getD_eq_get _ _ hj]
      exact List.get_mem _ _ _
    exact of_decide_eq_true (List.mem_filter.mp hmem).2

/-- Witness for C4 on the concrete 4 x 4 sample grid with bounds
(1/2, 3/2, 5/2, 7/2) strictly inside its extent: the cropped height is
strictly smaller. -/
theorem crop_to_bounds_inside_witness :
    (cropToBounds sampleGrid (1/2) (3/2) (5/2) (7/2)).height < sampleGrid.height :=
  (crop_to_bounds_inside sampleGrid (1/2) (3/2) (5/2) (7/2)
    (by decide) (by decide)
    (by with_unfolding_all decide) (by with_unfolding_all decide)
    (by with_unfolding_all decide) (by with_unfolding_all decide)
    (by with_unfolding_all decide) (by with_unfolding_all decide)).1

/-- Counterexample to C5: on the concrete sample grid (affine transform
(1, 0, 0, 0, -1, 4), so translation terms c = 0, f = 4) cropped to bounds
(1/2, 3/2, 5/2, 7/2), the first retained column coordinate is 1 and the
first retained row coordinate is 3, yet the grid returned by
`crop_to_bounds` still carries the original transform with c = 0 and
f = 4: the translation terms are not recomputed to the new origin. -/
theorem crop_transform_not_recomputed :
    (cropToBounds sampleGrid (1/2) (3/2) (5/2) (7/2)).attrs "transform"
        = some (AttrVal.affine ⟨1, 0, 0, 0, -1, 4⟩)
    ∧ (cropToBounds sampleGrid (1/2) (3/2) (5/2) (7/2)).xcoords 0 = 1
    ∧ (cropToBounds sampleGrid (1/2) (3/2) (5/2) (7/2)).ycoords 0 = 3
    ∧ ((1 : ℚ) ≠ 0 ∧ (3 : ℚ) ≠ 4) := by
  with_unfolding_all decide

/-- Amended C5: `crop_to_bounds` passes `affine_transform` (and `crs`)
through unchanged - the translation terms are not recomputed - and every
other stage also passes both through unchanged. -/
theorem transform_crs_passthrough (data : DataArray) (minx miny maxx maxy : ℚ)
    (mode ft : String) (ws : ℕ) (geoms : List BBox) (k : String)
    (hk : k = "transform" ∨ k = "crs") :
    (cropToBounds data minx miny maxx maxy).attrs k = data.attrs k
    ∧ (calibrate data mode).attrs k = data.attrs k
    ∧ (to_db data).attrs k = data.attrs k
    ∧ (clipToGeojson data geoms).attrs k = data.attrs k
    ∧ ∀ r, applySpeckleFilter data ft ws = Except.ok r →
        r.attrs k = data.attrs k := by
  have h1 : k ≠ "units" := by rcases hk with rfl | rfl <;> decide
  have h2 : k ≠ "calibration" := by rcases hk with rfl | rfl <;> decide
  have h3 : k ≠ "geojson_bounds" := by rcases hk with rfl | rfl <;> decide
  have h4 : k ≠ "speckle_filter" := by rcases hk with rfl | rfl <;> decide
  have h5 : k ≠ "filter_window" := by rcases hk with rfl | rfl <;> decide
  refine ⟨rfl, ?_, ?_, ?_, ?_⟩
  · simp [calibrate, setAttr, h1, h2]
  · simp [to_db, setAttr, h1]
  · simp [clipToGeojson, setAttr, h3]
  · intro r hr
    unfold applySpeckleFilter at hr
    split_ifs at hr
    all_goals first
      | exact Except.noConfusion hr
      | (injection hr with h; subst h; simp [stampFilter, setAttr, h4, h5])

/-- Witness for the amended C5 on the concrete sample grid: the transform
attribute survives cropping unchanged. -/
theorem transform_crs_passthrough_witness :
    (cropToBounds sampleGrid 0 0 1 1).attrs "transform"
      = sampleGrid.attrs "transform" :=
  (transform_crs_passthrough sampleGrid 0 0 1 1 "sigma0" "lee" 3 [] "transform"
    (Or.inl rfl)).1

/-- C6: for every grid and boundary-file geometry list, `clip_to_geojson`
returns a grid with samples, shape and coordinates identical to the input,
records the combined bounding box of all geometries under the metadata key
"geojson_bounds", and leaves every other metadata key - in particular
"cropped" - unchanged, so it never sets a truthy "cropped" flag. -/
theorem clip_to_geojson_annotate_only (data : DataArray) (geoms : List BBox) :
    (clipToGeojson data geoms).samples = data.samples
    ∧ (clipToGeojson data geoms).height = data.height
    ∧ (clipToGeojson data geoms).width = data.width
    ∧ (clipToGeojson data geoms).ycoords = data.ycoords
    ∧ (clipToGeojson data geoms).xcoords = data.xcoords
    ∧ (clipToGeojson data geoms).attrs "geojson_bounds"
        = some (AttrVal.bbox (totalBounds geoms))
    ∧ (clipToGeojson data geoms).attrs "cropped" = data.attrs "cropped"
    ∧ ∀ k, k ≠ "geojson_bounds" →
        (clipToGeojson data geoms).attrs k = data.attrs k := by
  refine ⟨rfl, rfl, rfl, rfl, rfl, ?_, ?_, ?_⟩
  · simp [clipToGeojson, setAttr]
  · simp [clipToGeojson, setAttr]
  · intro k hk
    simp [clipToGeojson, setAttr, hk]

/-- Witness for C6 on the concrete sample grid and a one-geometry boundary
file: the units key is untouched. -/
theorem clip_to_geojson_annotate_only_witness :
    (clipToGeojson sampleGrid [⟨0, 0, 2, 2⟩]).attrs "units"
      = sampleGrid.attrs "units" :=
  (clip_to_geojson_annotate_only sampleGrid [⟨0, 0, 2, 2⟩]).2.2.2.2.2.2.2
    "units" (by decide)

/-- Counterexample to C7: the calibrator performs no validation of the
calibration mode. Called with the unsupported mode "not_a_mode" it raises
nothing and returns a normally calibrated grid that records the bogus mode
in its metadata. -/
theorem calibrate_accepts_unknown_mode :
    (calibrate sampleGrid "not_a_mode").attrs "calibration"
        = some (AttrVal.str "not_a_mode")
    ∧ (calibrate sampleGrid "not_a_mode").attrs "units"
        = some (AttrVal.str "linear")
    ∧ (calibrate sampleGrid "not_a_mode").samples 1 1 = 121 / 1000000 := by
  refine ⟨?_, ?_, ?_⟩
  · simp [calibrate, setAttr]
  · simp [calibrate, setAttr]
  · show sampleGrid.samples 1 1 ^ 2 / 1000000 = 121 / 1000000
    norm_num [sampleGrid]

/-- Amended C7: the speckle filter bank raises ValueError for every filter
kind outside lee, refined_lee and median; the calibrator, by contrast,
validates nothing and returns a normally calibrated grid for every mode
string, merely recording the mode in metadata. -/
theorem unsupported_filter_rejected (data : DataArray) (ft mode : String) (ws : ℕ)
    (hm : ft ≠ "median") (hl : ft ≠ "lee") (hr : ft ≠ "refined_lee") :
    applySpeckleFilter data ft ws
        = Except.error ("Unknown filter type: " ++ ft)
    ∧ (calibrate data mode).attrs "calibration" = some (AttrVal.str mode)
    ∧ (calibrate data mode).attrs "units" = some (AttrVal.str "linear") := by
  refine ⟨?_, ?_, ?_⟩
  · unfold applySpeckleFilter
    rw [if_neg hm, if_neg hl, if_neg hr]
  · simp [calibrate, setAttr]
  · simp [calibrate, setAttr]

/-- Witness for the amended C7 with the unsupported kind "boxcar". -/
theorem unsupported_filter_rejected_witness :
    applySpeckleFilter sampleGrid "boxcar" 5
      = Except.error ("Unknown filter type: " ++ "boxcar") :=
  (unsupported_filter_rejected sampleGrid "boxcar" "sigma0" 5
    (by decide) (by decide) (by decide)).1

/-- C8: for every supported filter kind and every odd window size of at
least 3, `apply_speckle_filter` returns a grid with the same samples shape
as the input, with coordinates, affine transform, crs and the units
metadata unchanged, and with `metadata["speckle_filter"] = kind` and
`metadata["filter_window"] = window_size` added. -/
theorem speckle_filter_frame (data : DataArray) (kind : String) (ws : ℕ)
    (hkind : kind = "lee" ∨ kind = "refined_lee" ∨ kind = "median")
    (hodd : Odd ws) (hge : 3 ≤ ws) :
    ∃ r, applySpeckleFilter data kind ws = Except.ok r
      ∧ r.height = data.height ∧ r.width = data.width
      ∧ r.ycoords = data.ycoords ∧ r.xcoords = data.xcoords
      ∧ r.attrs "transform" = data.attrs "transform"
      ∧ r.attrs "crs" = data.attrs "crs"
      ∧ r.attrs "units" = data.attrs "units"
      ∧ r.attrs "speckle_filter" = some (AttrVal.str kind)
      ∧ r.attrs "filter_window" = some (AttrVal.int (ws : ℤ)) := by
  rcases hkind with rfl | rfl | rfl
  all_goals
    exact ⟨_, rfl, rfl, rfl, rfl, rfl,
      by simp [stampFilter, setAttr], by simp [stampFilter, setAttr],
      by simp [stampFilter, setAttr], by simp [stampFilter, setAttr],
      by simp [stampFilter, setAttr]⟩

/-- Witness for C8 at the concrete sample grid with the lee kind and
window size 3. -/
theorem speckle_filter_frame_witness :
    ∃ r, applySpeckleFilter sampleGrid "lee" 3 = Except.ok r
      ∧ r.height = sampleGrid.height ∧ r.width = sampleGrid.width
      ∧ r.ycoords = sampleGrid.ycoords ∧ r.xcoords = sampleGrid.xcoords
      ∧ r.attrs "transform" = sampleGrid.attrs "transform"
      ∧ r.attrs "crs" = sampleGrid.attrs "crs"
      ∧ r.attrs "units" = sampleGrid.attrs "units"
      ∧ r.attrs "speckle_filter" = some (AttrVal.str "lee")
      ∧ r.attrs "filter_window" = some (AttrVal.int 3) :=
  speckle_filter_frame sampleGrid "lee" 3 (Or.inl rfl) (by decide) (by decide)

/-- C10: for every archive whose entries contain no measurement file
matching the requested polarization token, `load_band` raises the
not-found ValueError rather than returning an empty or silent result. -/
theorem load_band_missing_polarization (archiveName : String)
    (entries : List String) (pol : String)
    (hnone : ∀ e ∈ entries, isMeasurementFile pol e = false) :
    loadBandSelect archiveName entries pol
      = Except.error ("No " ++ pol ++ " polarization found in " ++ archiveName) := by
  have hfil : entries.filter (isMeasurementFile pol) = [] :=
    List.filter_eq_nil_iff.mpr (by intro a ha; simp [hnone a ha])
  unfold loadBandSelect
  rw [hfil]

/-- Witness for C10: requesting HH from an archive carrying only VV and VH
measurement rasters yields the not-found error. -/
theorem load_band_missing_polarization_witness :
    loadBandSelect "S1A_IW_GRDH.SAFE.zip" sampleEntries "HH"
      = Except.error
          ("No " ++ "HH" ++ " polarization found in " ++ "S1A_IW_GRDH.SAFE.zip") :=
  load_band_missing_polarization "S1A_IW_GRDH.SAFE.zip" sampleEntries "HH"
    (by decide)
